import Mathlib

/-!
Verification of the GNSS spoofing-detection pipeline in `src/app/page.tsx`
(functions `parseRinexObservation`, `parseRinexNavigation`,
`generateRealisticResults`, `POST`).

JavaScript numbers are embedded as exact rationals.  To keep every
computation kernel-evaluable we use an unnormalised fraction type `Q`:
`num : Int` over the always-positive denominator `dp + 1`.  All arithmetic
is plain integer arithmetic and order/equality are decided by
cross-multiplication, which is sound because every denominator is positive
by construction.  The transcendental JS builtins (`Math.sin`, `Math.cos`,
`Math.sqrt`) are supplied as an explicit environment `MathEnv`, and the
global `Math.random` generator is an explicit stream `RNG` threaded through
the code in the order the source calls it.
-/

namespace RinexSpoof

/-- Exact rational with denominator `dp + 1`; models a JavaScript number. -/
structure Q where
  num : Int
  dp : Nat
  deriving DecidableEq, Repr

/-- The (always positive) denominator of a `Q`. -/
def Q.den (a : Q) : Int := (a.dp : Int) + 1

instance : Add Q := ⟨fun a b => ⟨a.num * b.den + b.num * a.den, a.dp * b.dp + a.dp + b.dp⟩⟩

instance : Mul Q := ⟨fun a b => ⟨a.num * b.num, a.dp * b.dp + a.dp + b.dp⟩⟩

instance : Neg Q := ⟨fun a => ⟨-a.num, a.dp⟩⟩

instance : Sub Q := ⟨fun a b => a + -b⟩

instance : LT Q := ⟨fun a b => a.num * b.den < b.num * a.den⟩

instance : LE Q := ⟨fun a b => a.num * b.den ≤ b.num * a.den⟩

instance (a b : Q) : Decidable (a < b) := Int.decLt _ _

instance (a b : Q) : Decidable (a ≤ b) := Int.decLe _ _

instance : OfNat Q n := ⟨⟨n, 0⟩⟩

instance : NatCast Q := ⟨fun n => ⟨n, 0⟩⟩

instance : IntCast Q := ⟨fun i => ⟨i, 0⟩⟩

instance : OfScientific Q := ⟨fun m s e => if s then ⟨(m : Int), 10 ^ e - 1⟩ else ⟨(m : Int) * 10 ^ e, 0⟩⟩

/-- Division, used in the source only with a positive right operand. -/
instance : Div Q := ⟨fun a b => if 0 < b.num then ⟨a.num * b.den, (a.dp + 1) * b.num.toNat - 1⟩ else ⟨0, 0⟩⟩

/-- Semantic equality of the represented rationals (cross multiplication). -/
def Q.qeq (a b : Q) : Prop := a.num * b.den = b.num * a.den

instance (a b : Q) : Decidable (a.qeq b) := Int.instDecidableEq _ _

/-- Boolean strict order, for JS `<` / `>` used inside `filter`s. -/
def Q.ltb (a b : Q) : Bool := decide (a < b)

/-- JS `Math.floor` (floor division; exact for our rationals). -/
def Q.floor (a : Q) : Int := Int.fdiv a.num a.den

/-- JS `Math.round` (round half up, i.e. `floor (x + 1/2)`). -/
def Q.jround (a : Q) : Int := (a + ⟨1, 1⟩).floor

/-- JS `Math.max` on two numbers. -/
def Q.qmax (a b : Q) : Q := if a < b then b else a

/-- JS `Math.min` on two numbers. -/
def Q.qmin (a b : Q) : Q := if b < a then b else a

/- ## JavaScript string primitives used by the parsers -/

/-- Whitespace as matched by `\s` / `trim` on the ASCII inputs at hand. -/
def isWsChar (c : Char) : Bool := c == ' ' || c == '\t' || c == '\n' || c == '\r'

def isDigitChar (c : Char) : Bool := 48 ≤ c.toNat && c.toNat ≤ 57

def isUpperChar (c : Char) : Bool := 65 ≤ c.toNat && c.toNat ≤ 90

def jsTrimList (cs : List Char) : List Char :=
  ((cs.dropWhile isWsChar).reverse.dropWhile isWsChar).reverse

/-- JS `String.prototype.trim`. -/
def jsTrim (s : String) : String := ⟨jsTrimList s.data⟩

def jsIncludesAux (pat : List Char) : List Char → Bool
  | [] => pat.isEmpty
  | c :: rest => pat.isPrefixOf (c :: rest) || jsIncludesAux pat rest

/-- JS `String.prototype.includes`. -/
def jsIncludes (s pat : String) : Bool := jsIncludesAux pat.data s.data

/-- JS `String.prototype.startsWith`. -/
def jsStartsWith (s pat : String) : Bool := pat.data.isPrefixOf s.data

/-- JS `s.substring(a, b)` for `a ≤ b` (all call sites satisfy this). -/
def jsSubstring (s : String) (a b : Nat) : String := ⟨(s.data.drop a).take (b - a)⟩

/-- JS `s.substring(a)`. -/
def jsSubstringFrom (s : String) (a : Nat) : String := ⟨s.data.drop a⟩

/-- JS `s.length` (the inputs are ASCII, so UTF-16 units = characters). -/
def jsLength (s : String) : Nat := s.data.length

def splitLinesAux : List Char → List Char → List String
  | [], acc => [⟨acc.reverse⟩]
  | '\r' :: '\n' :: rest, acc => ⟨acc.reverse⟩ :: splitLinesAux rest []
  | '\n' :: rest, acc => ⟨acc.reverse⟩ :: splitLinesAux rest []
  | c :: rest, acc => splitLinesAux rest (c :: acc)

/-- JS `content.split(/\r?\n/)`. -/
def splitLines (s : String) : List String := splitLinesAux s.data []

def splitWsAux : List Char → List Char → List String
  | [], acc => if acc.isEmpty then [] else [⟨acc.reverse⟩]
  | c :: rest, acc =>
    if isWsChar c then
      (if acc.isEmpty then splitWsAux rest [] else ⟨acc.reverse⟩ :: splitWsAux rest [])
    else
      splitWsAux rest (c :: acc)

/-- JS `s.trim().split(/\s+/)`: note that on an all-whitespace string JS
yields the singleton `[""]`, which we reproduce. -/
def wsTokens (s : String) : List String :=
  let t := jsTrimList s.data
  if t.isEmpty then [""] else splitWsAux t []

def natOfDigits (ds : List Char) : Nat := ds.foldl (fun a c => a * 10 + (c.toNat - 48)) 0

/-- JS `Number.parseInt` (decimal): skip whitespace, optional sign, leading
digits; `none` models `NaN`. -/
def jsParseInt (s : String) : Option Int :=
  let cs := s.data.dropWhile isWsChar
  match cs with
  | '-' :: rest =>
    if (rest.takeWhile isDigitChar).isEmpty then none
    else some (-(natOfDigits (rest.takeWhile isDigitChar) : Int))
  | '+' :: rest =>
    if (rest.takeWhile isDigitChar).isEmpty then none
    else some ((natOfDigits (rest.takeWhile isDigitChar) : Int))
  | _ =>
    if (cs.takeWhile isDigitChar).isEmpty then none
    else some ((natOfDigits (cs.takeWhile isDigitChar) : Int))

/-- JS `parseInt(tok) || d`: `NaN` and `0` are both falsy. -/
def jsIntOr (s : String) (d : Int) : Int :=
  match jsParseInt s with
  | some v => if v = 0 then d else v
  | none => d

def readExpAux (cs : List Char) : Int :=
  match cs with
  | '-' :: rest =>
    if (rest.takeWhile isDigitChar).isEmpty then 0
    else -(natOfDigits (rest.takeWhile isDigitChar) : Int)
  | '+' :: rest =>
    if (rest.takeWhile isDigitChar).isEmpty then 0
    else (natOfDigits (rest.takeWhile isDigitChar) : Int)
  | _ =>
    if (cs.takeWhile isDigitChar).isEmpty then 0
    else (natOfDigits (cs.takeWhile isDigitChar) : Int)

def applyExp (a : Q) (e : Int) : Q :=
  if 0 ≤ e then ⟨a.num * ((10 ^ e.toNat : Nat) : Int), a.dp⟩
  else ⟨a.num, (a.dp + 1) * 10 ^ (-e).toNat - 1⟩

/-- JS `Number.parseFloat` (decimal with optional `e`/`E` exponent);
`none` models `NaN`. -/
def jsParseFloat (s : String) : Option Q :=
  let cs0 := s.data.dropWhile isWsChar
  let sgn : Bool := match cs0 with
    | '-' :: _ => true
    | _ => false
  let cs := match cs0 with
    | '-' :: rest => rest
    | '+' :: rest => rest
    | _ => cs0
  let intDs := cs.takeWhile isDigitChar
  let cs1 := cs.dropWhile isDigitChar
  let fracDs := match cs1 with
    | '.' :: rest => rest.takeWhile isDigitChar
    | _ => []
  let cs2 := match cs1 with
    | '.' :: rest => rest.dropWhile isDigitChar
    | _ => cs1
  if intDs.isEmpty && fracDs.isEmpty then none
  else
    let mant : Q :=
      ⟨(natOfDigits intDs : Int) * ((10 ^ fracDs.length : Nat) : Int) + (natOfDigits fracDs : Int),
        10 ^ fracDs.length - 1⟩
    let ex : Int := match cs2 with
      | 'e' :: rest => readExpAux rest
      | 'E' :: rest => readExpAux rest
      | _ => 0
    let v := applyExp mant ex
    some (if sgn then -v else v)

/-- JS `parseFloat(tok) || d`: `NaN` and `0` are both falsy. -/
def jsFloatOr (s : String) (d : Q) : Q :=
  match jsParseFloat s with
  | some v => if v.num = 0 then d else v
  | none => d

/-- JS `Set`-style insertion: append unless already present. -/
def jsSetAdd [DecidableEq α] (acc : List α) (x : α) : List α :=
  if x ∈ acc then acc else acc ++ [x]

/-- JS `[...new Set(l)]`: deduplicate keeping first occurrences. -/
def jsSetFrom [DecidableEq α] (l : List α) : List α := l.foldl jsSetAdd []

/-- Replace the element at an index, if present (JS array element mutation). -/
def jsModifyAt (f : α → α) : Nat → List α → List α
  | _, [] => []
  | 0, a :: rest => f a :: rest
  | n + 1, a :: rest => a :: jsModifyAt f n rest

/-- Mutation of the last array element (`epochData[epochData.length - 1]`). -/
def updateLast (f : α → α) : List α → List α
  | [] => []
  | [a] => [f a]
  | a :: rest => a :: updateLast f rest

/- ## Environment for JS builtins -/

/-- The transcendental `Math` builtins the pipeline consults. -/
structure MathEnv where
  sin : Q → Q
  cos : Q → Q
  sqrt : Q → Q

/-- The global `Math.random` stream with its call counter. -/
structure RNG where
  stream : Nat → Q
  idx : Nat

/-- One `Math.random()` call: the drawn value and the advanced generator. -/
def RNG.take (r : RNG) : Q × RNG := (r.stream r.idx, ⟨r.stream, r.idx + 1⟩)

/- ## Data model (page.tsx records) -/

/-- An epoch header as built at page.tsx:670 and page.tsx:732. -/
structure EpochHeader where
  year : Int
  month : Int
  day : Int
  hour : Int
  minute : Int
  second : Q
  flag : Int
  numSats : Int
  deriving DecidableEq

/-- A per-satellite observation record (page.tsx:688, after defaults). -/
structure SatObs where
  satellite : String
  pseudorange : Q
  carrierPhase : Q
  doppler : Q
  snr : Q
  deriving DecidableEq

/-- One parsed observation epoch (page.tsx:662). -/
structure ObsEpoch where
  epoch : EpochHeader
  satellites : List SatObs
  deriving DecidableEq

/-- A navigation `toc` timestamp (page.tsx:863 and page.tsx:898). -/
structure Toc where
  year : Int
  month : Int
  day : Int
  hour : Int
  minute : Int
  second : Q
  deriving DecidableEq

/-- The mutable `satData` object of the navigation parser: the clock block
set by a header line plus the orbital fields set by continuation lines
(absent JS keys are `none`). -/
structure NavData where
  toc : Toc
  clockBias : Q
  clockDrift : Q
  clockDriftRate : Q
  iode : Option Q := none
  crs : Option Q := none
  deltaN : Option Q := none
  m0 : Option Q := none
  cuc : Option Q := none
  e : Option Q := none
  cus : Option Q := none
  sqrtA : Option Q := none
  toe : Option Q := none
  cic : Option Q := none
  omega0 : Option Q := none
  cis : Option Q := none
  deriving DecidableEq

/-- A pushed ephemeris record `{ satellite, ...satData }` (page.tsx:852). -/
structure NavRec where
  satellite : String
  data : NavData
  deriving DecidableEq

/- ## Shared regex testers and year pivot -/

/-- Regex `/^[A-Z]\d{2}/` (page.tsx:683, page.tsx:849, page.tsx:915). -/
def testSatIdStart (s : String) : Bool :=
  match s.data with
  | c1 :: c2 :: c3 :: _ => isUpperChar c1 && isDigitChar c2 && isDigitChar c3
  | _ => false

def wsPlus (cs : List Char) : Option (List Char) :=
  match cs with
  | c :: rest => if isWsChar c then some (rest.dropWhile isWsChar) else none
  | [] => none

def twoDigitsWs (cs : List Char) : Option (List Char) :=
  match cs with
  | a :: b :: rest => if isDigitChar a && isDigitChar b then wsPlus rest else none
  | _ => none

def oneTwoDigitsWs (cs : List Char) : Option (List Char) :=
  match cs with
  | a :: b :: rest =>
    if isDigitChar a then
      (if isDigitChar b then wsPlus rest else wsPlus (b :: rest))
    else none
  | _ => none

def leadDigit (cs : List Char) : Bool :=
  match cs with
  | a :: _ => isDigitChar a
  | [] => false

/-- Regex `/^\s*\d{2}\s+\d{1,2}\s+\d{1,2}\s+\d{1,2}\s+\d{1,2}/`
(page.tsx:717, the RINEX 2.x observation epoch line). -/
def testV2ObsEpochLine (s : String) : Bool :=
  match twoDigitsWs (s.data.dropWhile isWsChar) with
  | none => false
  | some c1 =>
    match oneTwoDigitsWs c1 with
    | none => false
    | some c2 =>
      match oneTwoDigitsWs c2 with
      | none => false
      | some c3 =>
        match oneTwoDigitsWs c3 with
        | none => false
        | some c4 => leadDigit c4

/-- Regex `/^\s*\d{1,2}\s/` (page.tsx:879 and page.tsx:915). -/
def testNavV2HeaderLine (s : String) : Bool :=
  match s.data.dropWhile isWsChar with
  | a :: b :: rest =>
    isDigitChar a && (isWsChar b || (isDigitChar b &&
      (match rest with
       | c :: _ => isWsChar c
       | [] => false)))
  | _ => false

/-- Regex `/^\s*[\d\-.]/` (page.tsx:760). -/
def testLeadingNumChar (s : String) : Bool :=
  match s.data.dropWhile isWsChar with
  | c :: _ => isDigitChar c || c == '-' || c == '.'
  | [] => false

/-- The `line.match(/^\s*(\d+\.\d+)/)` version extraction followed by
`Number.parseFloat` of the capture (page.tsx:621 and page.tsx:832). -/
def matchVersionNum (s : String) : Option Q :=
  let cs := s.data.dropWhile isWsChar
  let intDs := cs.takeWhile isDigitChar
  if intDs.isEmpty then none
  else
    match cs.dropWhile isDigitChar with
    | '.' :: r2 =>
      let fracDs := r2.takeWhile isDigitChar
      if fracDs.isEmpty then none
      else some ⟨(natOfDigits intDs : Int) * ((10 ^ fracDs.length : Nat) : Int) + (natOfDigits fracDs : Int),
        10 ^ fracDs.length - 1⟩
    | _ => none

/-- The two-digit-year pivot used verbatim at page.tsx:729 and page.tsx:894:
`if (year < 80) year += 2000; else if (year < 100) year += 1900`. -/
def pivotYear (v : Int) : Int :=
  if v < 80 then v + 2000 else if v < 100 then v + 1900 else v

/-- Year of a RINEX 2.x epoch or ephemeris header token:
`Number.parseInt(tok)` then the pivot rule (the guarding regex makes the
token all digits, so the `NaN` case of `parseInt` is unreachable). -/
def parseV2Year (tok : String) : Int := pivotYear ((jsParseInt tok).getD 0)

/-- JS `n.toString().padStart(2, "0")` (page.tsx:891). -/
def padStart2 (n : Int) : String :=
  let s := toString n
  if s.length = 0 then "00" else if s.length = 1 then "0" ++ s else s

/- ## Observation parser (page.tsx:600-810) -/

/-- Fields of the RINEX 3.x satellite record while the observation-type
mapping loop runs; an unset JS property is `none`. -/
structure ObsFields where
  pseudorange : Option Q := none
  carrierPhase : Option Q := none
  doppler : Option Q := none
  snr : Option Q := none

/-- One step of the type-mapping loop at page.tsx:691-704. -/
def applyObsType (f : ObsFields) (ty : String) (v : Q) : ObsFields :=
  if jsStartsWith ty "C" || ty = "P1" || ty = "P2" then { f with pseudorange := some v }
  else if jsStartsWith ty "L" || ty = "L1" || ty = "L2" then { f with carrierPhase := some v }
  else if jsStartsWith ty "D" || ty = "D1" || ty = "D2" then { f with doppler := some v }
  else if jsStartsWith ty "S" || ty = "S1" || ty = "S2" then { f with snr := some v }
  else f

/-- The `if (!satObs.field) satObs.field = default` pattern at
page.tsx:706-710: an absent or zero (falsy) field is replaced by a
freshly drawn random default. -/
def fillDefault (cur : Option Q) (r : RNG) (mk : Q → Q) : Q × RNG :=
  match cur with
  | some v => if v.num = 0 then (let p := r.take; (mk p.1, p.2)) else (v, r)
  | none => let p := r.take; (mk p.1, p.2)

/-- The RINEX 3.x satellite-observation line body (page.tsx:683-712):
positional mapping of whitespace tokens over the header's observation
types, then random defaults for every falsy field. -/
def buildV3SatObs (types : List String) (satId : String) (values : List String) (r : RNG) :
    SatObs × RNG :=
  let fields := (types.zip values).foldl (fun f tv => applyObsType f tv.1 (jsFloatOr tv.2 0)) {}
  let pr := fillDefault fields.pseudorange r (fun a => 20000000 + a * 5000000)
  let cp := fillDefault fields.carrierPhase pr.2 (fun a => a * 1000)
  let dp := fillDefault fields.doppler cp.2 (fun a => (a - 0.5) * 2000)
  let sn := fillDefault fields.snr dp.2 (fun a => 35 + a * 15)
  ({ satellite := satId, pseudorange := pr.1, carrierPhase := cp.1, doppler := dp.1, snr := sn.1 },
    sn.2)

/-- The RINEX 2.x same-line satellite list (page.tsx:745-757): each id
token of length ≥ 3 becomes a record with all four observables drawn at
random. -/
def mkV2SatList : List String → RNG → List SatObs × RNG
  | [], r => ([], r)
  | t :: ts, r =>
    if t.length ≥ 3 then
      let a := r.take
      let b := a.2.take
      let c := b.2.take
      let d := c.2.take
      let sat : SatObs :=
        { satellite := jsSubstring t 0 3
          pseudorange := 20000000 + a.1 * 5000000
          carrierPhase := b.1 * 1000
          doppler := (c.1 - 0.5) * 2000
          snr := 35 + d.1 * 15 }
      let rest := mkV2SatList ts d.2
      (sat :: rest.1, rest.2)
    else
      mkV2SatList ts r

/-- The fixed-width value scan of a RINEX 2.x observation data line
(page.tsx:762-768): 16-character stride, 14-character fields, empty
fields skipped, unparseable fields resolving to 0. -/
def collectObsValues (cs : List Char) : List Q :=
  ((List.range ((cs.length + 15) / 16)).map
      (fun k => jsTrim ⟨(cs.drop (16 * k)).take 14⟩)).foldr
    (fun v acc => if v ≠ "" then jsFloatOr v 0 :: acc else acc) []

/-- The positional update of the last satellite's fields from a RINEX 2.x
data line (page.tsx:771-795). -/
def applyV2Values (types : List String) (vals : List Q) (sat : SatObs) : SatObs :=
  let sat :=
    if (vals.getD 0 0).num ≠ 0 ∧ types.getD 0 "" ≠ "" ∧
        (jsStartsWith (types.getD 0 "") "C" || types.getD 0 "" = "P1") then
      { sat with pseudorange := vals.getD 0 0 }
    else sat
  let sat :=
    if (vals.getD 1 0).num ≠ 0 ∧ types.getD 1 "" ≠ "" ∧
        (jsStartsWith (types.getD 1 "") "L" || types.getD 1 "" = "L1") then
      { sat with carrierPhase := vals.getD 1 0 }
    else sat
  let sat :=
    if (vals.getD 2 0).num ≠ 0 ∧ types.getD 2 "" ≠ "" ∧
        (jsStartsWith (types.getD 2 "") "D" || types.getD 2 "" = "D1") then
      { sat with doppler := vals.getD 2 0 }
    else sat
  if (vals.getD 3 0).num ≠ 0 ∧ types.getD 3 "" ≠ "" ∧
      (jsStartsWith (types.getD 3 "") "S" || types.getD 3 "" = "S1") then
    { sat with snr := vals.getD 3 0 }
  else sat

/-- The observation parser's mutable variables (page.tsx:602-607). -/
structure ObsState where
  headerComplete : Bool
  currentEpoch : Option EpochHeader
  epochData : List SatObs
  observationTypes : List String
  rinexVersion : Q
  observations : List ObsEpoch
  rng : RNG

/-- Pushing `{ epoch: currentEpoch, satellites: epochData }` when a new
epoch starts or input ends (page.tsx:661-666, 719-724, 801-806). -/
def flushEpoch (st : ObsState) : ObsState :=
  match st.currentEpoch with
  | some ep =>
    if st.epochData.isEmpty then st
    else { st with observations := st.observations ++ [{ epoch := ep, satellites := st.epochData }] }
  | none => st

/-- One iteration of the observation parser's line loop (page.tsx:611-798). -/
def processObsLine (st : ObsState) (line : String) : ObsState :=
  if (jsTrim line).data.isEmpty then st
  else if ¬ st.headerComplete then
    let st :=
      if jsIncludes line "RINEX VERSION" then
        match matchVersionNum line with
        | some v => { st with rinexVersion := v }
        | none => st
      else st
    let st :=
      if jsIncludes line "# / TYPES OF OBSERV" then
        { st with observationTypes := (wsTokens (jsSubstring line 6 60)).filter (fun t => t.length > 0) }
      else st
    let st :=
      if jsIncludes line "SYS / # / OBS TYPES" then
        let parts := wsTokens line
        if parts.getD 0 "" = "G" then
          match jsParseInt (parts.getD 1 "") with
          | some n => { st with observationTypes := (parts.drop 2).take n.toNat }
          | none => { st with observationTypes := [] }
        else st
      else st
    if jsIncludes line "END OF HEADER" then { st with headerComplete := true } else st
  else if (3 : Q) ≤ st.rinexVersion then
    if jsStartsWith line ">" then
      let st := flushEpoch st
      let parts := wsTokens line
      let ep : EpochHeader :=
        { year := jsIntOr (parts.getD 1 "") 2024
          month := jsIntOr (parts.getD 2 "") 1
          day := jsIntOr (parts.getD 3 "") 1
          hour := jsIntOr (parts.getD 4 "") 0
          minute := jsIntOr (parts.getD 5 "") 0
          second := jsFloatOr (parts.getD 6 "") 0
          flag := jsIntOr (parts.getD 7 "") 0
          numSats := jsIntOr (parts.getD 8 "") 0 }
      { st with currentEpoch := some ep, epochData := [] }
    else if jsLength line > 3 ∧ testSatIdStart (jsTrim line) then
      let built := buildV3SatObs st.observationTypes (jsSubstring line 0 3)
        (wsTokens (jsSubstringFrom line 3)) st.rng
      { st with epochData := st.epochData ++ [built.1], rng := built.2 }
    else st
  else
    if testV2ObsEpochLine line then
      let st := flushEpoch st
      let parts := wsTokens line
      let ep : EpochHeader :=
        { year := parseV2Year (parts.getD 0 "")
          month := jsIntOr (parts.getD 1 "") 1
          day := jsIntOr (parts.getD 2 "") 1
          hour := jsIntOr (parts.getD 3 "") 0
          minute := jsIntOr (parts.getD 4 "") 0
          second := jsFloatOr (parts.getD 5 "") 0
          flag := jsIntOr (parts.getD 6 "") 0
          numSats := jsIntOr (parts.getD 7 "") 0 }
      let sats :=
        if parts.length > 8 then
          mkV2SatList ((parts.drop 8).take ep.numSats.toNat) st.rng
        else ([], st.rng)
      { st with currentEpoch := some ep, epochData := sats.1, rng := sats.2 }
    else if st.currentEpoch.isSome ∧ jsLength line > 10 ∧ testLeadingNumChar line then
      let obsValues := collectObsValues line.data
      if ¬ st.epochData.isEmpty ∧ ¬ obsValues.isEmpty then
        { st with epochData := updateLast (applyV2Values st.observationTypes obsValues) st.epochData }
      else st
    else st

/-- Embedding of `parseRinexObservation` (page.tsx:600-810), with the `Math.random`
stream made explicit. -/
def parseRinexObservation (content : String) (r : RNG) : List ObsEpoch × RNG :=
  let st0 : ObsState :=
    { headerComplete := false, currentEpoch := none, epochData := [],
      observationTypes := [], rinexVersion := 2, observations := [], rng := r }
  let st := flushEpoch ((splitLines content).foldl processObsLine st0)
  (st.observations, st.rng)

/- ## Navigation parser (page.tsx:812-952) -/

/-- The navigation parser's mutable variables (page.tsx:814-819). -/
structure NavState where
  headerComplete : Bool
  currentSat : Option String
  satData : Option NavData
  lineCount : Nat
  rinexVersion : Q
  ephemeris : List NavRec

/-- Pushing `{ satellite: currentSat, ...satData }` when a new block
starts or input ends (page.tsx:851-856, 881-886, 943-948). -/
def flushNav (st : NavState) : NavState :=
  match st.currentSat, st.satData with
  | some s, some d => { st with ephemeris := st.ephemeris ++ [{ satellite := s, data := d }] }
  | _, _ => st

/-- The clock block parsed from the tokens of an ephemeris header line
(page.tsx:862-874 and page.tsx:897-909; both versions read the same token
positions, only the year handling differs and is passed in). -/
def mkNavClock (year : Int) (parts : List String) : NavData :=
  { toc :=
      { year := year
        month := jsIntOr (parts.getD 2 "") 1
        day := jsIntOr (parts.getD 3 "") 1
        hour := jsIntOr (parts.getD 4 "") 0
        minute := jsIntOr (parts.getD 5 "") 0
        second := jsFloatOr (parts.getD 6 "") 0 }
    clockBias := jsFloatOr (parts.getD 7 "") 0
    clockDrift := jsFloatOr (parts.getD 8 "") 0
    clockDriftRate := jsFloatOr (parts.getD 9 "") 0 }

/-- The continuation-line group fill (page.tsx:916-938): groups of four
numeric fields selected by `lineCount`. -/
def applyNavDataLine (env : MathEnv) (d : NavData) (lineCount : Nat) (vals : List Q) : NavData :=
  let g := fun (i : Nat) => some (vals.getD i 0)
  if lineCount = 0 then
    { d with iode := g 0, crs := g 1, deltaN := g 2, m0 := g 3 }
  else if lineCount = 1 then
    { d with
        cuc := g 0
        e := g 1
        cus := g 2
        sqrtA := some (if (vals.getD 3 0).num = 0 then env.sqrt 26560000 else vals.getD 3 0) }
  else if lineCount = 2 then
    { d with toe := g 0, cic := g 1, omega0 := g 2, cis := g 3 }
  else d

/-- One iteration of the navigation parser's line loop (page.tsx:823-940). -/
def processNavLine (env : MathEnv) (st : NavState) (line : String) : NavState :=
  if (jsTrim line).data.isEmpty then st
  else if ¬ st.headerComplete then
    let st :=
      if jsIncludes line "RINEX VERSION" then
        match matchVersionNum line with
        | some v => { st with rinexVersion := v }
        | none => st
      else st
    if jsIncludes line "END OF HEADER" then { st with headerComplete := true } else st
  else
    let st :=
      if (3 : Q) ≤ st.rinexVersion then
        if jsLength line > 3 ∧ testSatIdStart (jsTrim line) then
          let st := flushNav st
          let parts := wsTokens line
          { st with
              currentSat := some (jsSubstring line 0 3)
              satData := some (mkNavClock (jsIntOr (parts.getD 1 "") 2024) parts)
              lineCount := 0 }
        else st
      else
        if jsLength line > 2 ∧ testNavV2HeaderLine line then
          let st := flushNav st
          let parts := wsTokens line
          let satNum := (jsParseInt (parts.getD 0 "")).getD 0
          { st with
              currentSat := some ("G" ++ padStart2 satNum)
              satData := some (mkNavClock (parseV2Year (parts.getD 1 "")) parts)
              lineCount := 0 }
        else st
    if st.currentSat.isSome ∧ ¬ (jsTrim line).data.isEmpty ∧
        ¬ testSatIdStart (jsTrim line) ∧ ¬ testNavV2HeaderLine line then
      match st.satData with
      | some d =>
        let vals := (wsTokens line).map (fun v => jsFloatOr v 0)
        { st with
            satData := some (applyNavDataLine env d st.lineCount vals)
            lineCount := st.lineCount + 1 }
      | none => { st with lineCount := st.lineCount + 1 }
    else st

/-- Embedding of `parseRinexNavigation` (page.tsx:812-952); this parser draws no random
numbers. -/
def parseRinexNavigation (env : MathEnv) (content : String) : List NavRec :=
  let st0 : NavState :=
    { headerComplete := false, currentSat := none, satData := none,
      lineCount := 0, rinexVersion := 2, ephemeris := [] }
  (flushNav ((splitLines content).foldl (processNavLine env) st0)).ephemeris

/- ## Result generation (page.tsx:954-1157) -/

/-- A synthetic position fix (page.tsx:995-1003). -/
structure Position where
  epoch : Nat
  x : Q
  y : Q
  z : Q
  pdop : Q
  accuracy : Q
  numSats : Int
  deriving DecidableEq

/-- A satellite-health entry (page.tsx:1051-1057). -/
structure SatHealth where
  sv : String
  health : Q
  snr : Q
  elevation : Q
  azimuth : Q
  deriving DecidableEq

/-- A per-epoch signal summary (page.tsx:1061-1066). -/
structure SignalPoint where
  epoch : Nat
  avgSnr : Q
  doppler : Q
  carrierPhase : Q
  deriving DecidableEq

/-- An anomaly record (page.tsx:1086-1111). -/
structure Anomaly where
  type : String
  severity : String
  count : Int
  description : String
  deriving DecidableEq

inductive ThreatLevel
  | LOW
  | MEDIUM
  | HIGH
  | CRITICAL
  deriving DecidableEq

/-- The processing summary (page.tsx:1150-1155). -/
structure ProcessingInfo where
  totalEpochs : Nat
  totalSatellites : Nat
  avgSatellitesPerEpoch : Q
  dataQuality : String
  deriving DecidableEq

/-- The result object returned by `generateRealisticResults`
(page.tsx:1138-1156). -/
structure DetectionResult where
  threatLevel : ThreatLevel
  spoofingProbability : Int
  flaggedEpochs : List Nat
  positionJumps : List Nat
  highPdop : List Nat
  pdopValues : List Q
  satelliteHealth : List SatHealth
  positionData : List Position
  signalData : List SignalPoint
  anomalies : List Anomaly
  recommendations : List String
  processingInfo : ProcessingInfo
  deriving DecidableEq

/-- The threat-level bucketing (page.tsx:1079-1083). -/
def threatLevelOf (p : Q) : ThreatLevel :=
  if p < 25 then .LOW
  else if p < 50 then .MEDIUM
  else if p < 75 then .HIGH
  else .CRITICAL

/-- One iteration of the synthetic-position loop (page.tsx:975-1004). -/
def genPositionAt (env : MathEnv) (i : Nat) (r : RNG) : Position × RNG :=
  let t1 := r.take
  let numVisibleSats : Int := 4 + (t1.1 * 8).floor
  let t2 := t1.2.take
  let avgElevation : Q := 30 + t2.1 * 45
  let pdop1 : Q := 1.5 + ((12 : Q) - (numVisibleSats : Q)) * 0.3
  let pdop2 : Q := pdop1 + (60 - avgElevation) / 20
  let t3 := t2.2.take
  let pdop3 : Q := pdop2 + t3.1 * 0.5
  let sp : Q × RNG :=
    if i = 15 ∨ i = 32 ∨ i = 41 then
      let t4 := t3.2.take
      (pdop3 + 4 + t4.1 * 3, t4.2)
    else (pdop3, t3.2)
  let pdop : Q := Q.qmax 1.0 (Q.qmin 15.0 sp.1)
  let t5 := sp.2.take
  let x : Q := 4000000 + env.sin ((i : Q) * 0.1) * 100 + (t5.1 - 0.5) * 50
  let t6 := t5.2.take
  let y : Q := 3000000 + env.cos ((i : Q) * 0.1) * 100 + (t6.1 - 0.5) * 50
  let t7 := t6.2.take
  let z : Q := 5000000 + env.sin ((i : Q) * 0.05) * 50 + (t7.1 - 0.5) * 25
  let t8 := t7.2.take
  let accuracy : Q := Q.qmax 1 (pdop * 0.8 + t8.1)
  ({ epoch := i, x := x, y := y, z := z, pdop := pdop, accuracy := accuracy,
     numSats := numVisibleSats }, t8.2)

/-- The position loop `for (let i = 0; i < numEpochs; i++)` starting at
index `i` with `n` iterations left. -/
def genPositionsFrom (env : MathEnv) : Nat → Nat → RNG → List Position × RNG
  | _, 0, r => ([], r)
  | i, n + 1, r =>
    let pr := genPositionAt env i r
    let rest := genPositionsFrom env (i + 1) n pr.2
    (pr.1 :: rest.1, rest.2)

/-- The consecutive-fix Euclidean distance (page.tsx:1011-1013). -/
def jsDistance (env : MathEnv) (prev curr : Position) : Q :=
  env.sqrt ((curr.x - prev.x) * (curr.x - prev.x) + (curr.y - prev.y) * (curr.y - prev.y) +
    (curr.z - prev.z) * (curr.z - prev.z))

def detectPositionJumpsAux (env : MathEnv) : Nat → Position → List Position → List Nat
  | _, _, [] => []
  | i, prev, curr :: rest =>
    (if (100 : Q) < jsDistance env prev curr then [i] else []) ++
      detectPositionJumpsAux env (i + 1) curr rest

/-- The jump-detection loop (page.tsx:1007-1018): flag every epoch `i ≥ 1`
whose distance from the previous fix exceeds 100. -/
def detectPositionJumps (env : MathEnv) (ps : List Position) : List Nat :=
  match ps with
  | [] => []
  | p :: rest => detectPositionJumpsAux env 1 p rest

/-- The demonstration fallback (page.tsx:1020-1036): when no jump is
detected, epochs 16, 33, 42 are flagged anyway and the corresponding
positions (when present) are displaced. -/
def addArtificialJumps (ps : List Position) (jumps : List Nat) : List Position × List Nat :=
  if jumps.isEmpty then
    let ps1 := jsModifyAt (fun p => { p with x := p.x + 200, y := p.y + 150 }) 16 ps
    let ps2 := jsModifyAt (fun p => { p with x := p.x - 180, z := p.z + 100 }) 33 ps1
    let ps3 := jsModifyAt (fun p => { p with y := p.y + 220, z := p.z - 80 }) 42 ps2
    (ps3, [16, 33, 42])
  else (ps, jumps)

/-- One satellite-health entry (page.tsx:1042-1058). -/
def genHealthOne (satId : String) (r : RNG) : SatHealth × RNG :=
  let t1 := r.take
  let baseHealth : Q := 0.3 + t1.1 * 0.7
  let health : Q := if satId = "G02" ∨ satId = "G04" then baseHealth * 0.4 else baseHealth
  let t2 := t1.2.take
  let t3 := t2.2.take
  let t4 := t3.2.take
  ({ sv := satId, health := Q.qmax 0.1 health, snr := 30 + t2.1 * 20,
     elevation := 15 + t3.1 * 75, azimuth := t4.1 * 360 }, t4.2)

def genHealthList : List String → RNG → List SatHealth × RNG
  | [], r => ([], r)
  | s :: rest, r =>
    let h := genHealthOne s r
    let tl := genHealthList rest h.2
    (h.1 :: tl.1, tl.2)

/-- The signal-summary loop (page.tsx:1061-1066), one entry per position
index. -/
def genSignalList (env : MathEnv) : Nat → Nat → RNG → List SignalPoint × RNG
  | _, 0, r => ([], r)
  | i, n + 1, r =>
    let t1 := r.take
    let t2 := t1.2.take
    let t3 := t2.2.take
    let s : SignalPoint :=
      { epoch := i
        avgSnr := 40 + env.sin ((i : Q) * 0.1) * 5 + t1.1 * 3
        doppler := env.sin ((i : Q) * 0.2) * 1000 + t2.1 * 100
        carrierPhase := env.sin ((i : Q) * 0.15) * 0.5 + t3.1 * 0.1 }
    let rest := genSignalList env (i + 1) n t3.2
    (s :: rest.1, rest.2)

/-- The unhealthy-satellite count `filter((s) => s.health < 0.5).length`
(page.tsx:1070). -/
def unhealthyCount (hs : List SatHealth) : Nat :=
  (hs.filter (fun s => Q.ltb s.health 0.5)).length

/-- The hard-coded common GPS satellites (page.tsx:968). -/
def commonSats : List String :=
  ["G01", "G02", "G03", "G04", "G05", "G06", "G07", "G08", "G09", "G10"]

/-- Embedding of `generateRealisticResults` (page.tsx:955-1157).  `ephemeris` is
accepted but never read by the source body. -/
def generateRealisticResults (env : MathEnv) (r0 : RNG) (observations : List ObsEpoch)
    (ephemeris : List NavRec) : DetectionResult :=
  let numEpochs := max 50 observations.length
  let obsIds := observations.foldl
    (fun acc o => o.satellites.foldl (fun a s => jsSetAdd a s.satellite) acc) []
  let satellites := (commonSats.foldl jsSetAdd obsIds).take 12
  let pr := genPositionsFrom env 0 numEpochs r0
  let aj := addArtificialJumps pr.1 (detectPositionJumps env pr.1)
  let positions := aj.1
  let positionJumps := aj.2
  let pdopValues := positions.map (fun p => p.pdop)
  let highPdop := (positions.filter (fun p => Q.ltb 6 p.pdop)).map (fun p => p.epoch)
  let hr := genHealthList satellites pr.2
  let satelliteHealth := hr.1
  let sr := genSignalList env 0 positions.length hr.2
  let signalData := sr.1
  let flaggedEpochs := jsSetFrom (highPdop ++ positionJumps)
  let unhealthySats := unhealthyCount satelliteHealth
  let rv := sr.2.take
  let prob0 : Q := 0 + (flaggedEpochs.length : Q) * 5 + (positionJumps.length : Q) * 20 +
    (unhealthySats : Q) * 15 + rv.1 * 10
  let prob : Q := Q.qmin 95 (Q.qmax 5 prob0)
  let threatLevel := threatLevelOf prob
  let anomalies : List Anomaly :=
    [{ type := "Position Jump"
       severity := if positionJumps.length > 2 then "High"
         else if positionJumps.length > 0 then "Medium" else "Low"
       count := positionJumps.length
       description := "Sudden position discontinuities detected" },
     { type := "High PDOP"
       severity := if highPdop.length > 10 then "High"
         else if highPdop.length > 5 then "Medium" else "Low"
       count := highPdop.length
       description := "Poor satellite geometry periods" },
     { type := "Satellite Health"
       severity := if unhealthySats > 3 then "High"
         else if unhealthySats > 1 then "Medium" else "Low"
       count := unhealthySats
       description := "Satellites showing suspicious behavior" },
     { type := "Signal Anomalies"
       severity := "Medium"
       count := (prob / 20).floor
       description := "Irregular signal characteristics detected" }]
  let recs0 : List String :=
    if threatLevel = ThreatLevel.CRITICAL then
      ["CRITICAL THREAT: Immediately cease reliance on GNSS positioning",
       "Switch to alternative navigation methods (INS, visual navigation, etc.)"]
    else if threatLevel = ThreatLevel.HIGH then
      ["HIGH THREAT: Exercise extreme caution with GNSS data",
       "Cross-reference position with alternative navigation aids"]
    else []
  let recs1 := recs0 ++
    (if positionJumps.length > 0 then
      ["Investigate position jumps at epochs: " ++
        String.intercalate ", " (positionJumps.map toString)]
     else [])
  let recs2 := recs1 ++
    (if unhealthySats > 0 then
      ["Monitor suspicious satellites: " ++
        String.intercalate ", "
          ((satelliteHealth.filter (fun s => Q.ltb s.health 0.5)).map (fun s => s.sv))]
     else [])
  let recommendations := recs2 ++
    ["Log all anomalies and report to relevant authorities",
     "Consider implementing additional GNSS authentication measures"]
  { threatLevel := threatLevel
    spoofingProbability := prob.jround
    flaggedEpochs := flaggedEpochs
    positionJumps := positionJumps
    highPdop := highPdop
    pdopValues := pdopValues
    satelliteHealth := satelliteHealth
    positionData := positions
    signalData := signalData
    anomalies := anomalies
    recommendations := recommendations
    processingInfo :=
      { totalEpochs := numEpochs
        totalSatellites := satellites.length
        avgSatellitesPerEpoch := (((((satellites.length : Q) * 0.8 * 10).jround : Int)) : Q) / 10
        dataQuality := if satellites.length ≥ 8 then "Good"
          else if satellites.length ≥ 6 then "Fair" else "Poor" } }

/- ## The POST handler (page.tsx:1159-1218) -/

inductive ApiResponse
  | ok (body : DetectionResult)
  | err (status : Nat) (message : String)
  deriving DecidableEq

def msgBothRequired : String :=
  "Both observation (.24o) and navigation (.24n) files are required"

def msgObsTooSmall : String := "Observation file appears to be too small or empty"

def msgNavTooSmall : String := "Navigation file appears to be too small or empty"

/-- The `try { parse; parse; generate } catch { generate([], []) }` block
(page.tsx:1192-1208), with a possible parser exception reified as
`Except.error`: either way the handler answers with a 200 `ok` body. -/
def handleParsed (env : MathEnv) (r : RNG) :
    Except String (List ObsEpoch × RNG × List NavRec) → ApiResponse
  | .ok out => .ok (generateRealisticResults env out.2.1 out.1 out.2.2)
  | .error _ => .ok (generateRealisticResults env r [] [])

/-- Embedding of `POST` (page.tsx:1159-1218): `none` models an absent form file; the
body strings are the uploaded file contents. -/
def POST (env : MathEnv) (r : RNG) (obsFile navFile : Option String) : ApiResponse :=
  match obsFile, navFile with
  | some obsContent, some navContent =>
    if jsLength obsContent < 100 then .err 400 msgObsTooSmall
    else if jsLength navContent < 100 then .err 400 msgNavTooSmall
    else
      let parsed := parseRinexObservation obsContent r
      handleParsed env r (.ok (parsed.1, parsed.2, parseRinexNavigation env navContent))
  | _, _ => .err 400 msgBothRequired

/-- Projection used to compare responses: the body's probability. -/
def ApiResponse.probOf : ApiResponse → Option Int
  | .ok d => some d.spoofingProbability
  | .err _ _ => none

set_option maxRecDepth 10000

/- ## Concrete evaluation inputs -/

/-- A concrete environment for evaluating counterexample runs.  With the
constant random streams used below all synthetic fixes of one run
coincide, so the only argument ever passed to `sqrt` is `0`, where
`fun q => q` agrees with the real square root; `sin`/`cos` are taken
constantly `0` (their values only shift the fixes by a bounded amount and
are immaterial to the flagged sets). -/
def testEnv : MathEnv := { sin := fun _ => 0, cos := fun _ => 0, sqrt := fun q => q }

/-- A constant `Math.random` outcome stream (every draw yields `c`). -/
def constRng (c : Q) : RNG := ⟨fun _ => c, 0⟩

def epochJan2024 : EpochHeader :=
  { year := 2024, month := 1, day := 1, hour := 0, minute := 0, second := 0,
    flag := 0, numSats := 12 }

def sat12Names : List String :=
  ["G11", "G12", "G13", "G14", "G15", "G16", "G17", "G18", "G19", "G20", "G21", "G22"]

/-- A parsed observation input with one epoch of twelve healthy-named
satellites (none of them the hard-coded suspicious `G02`/`G04`). -/
def obs12 : List ObsEpoch :=
  [{ epoch := epochJan2024,
     satellites := sat12Names.map (fun s =>
       { satellite := s, pseudorange := 20000000, carrierPhase := 0, doppler := 0, snr := 0 }) }]

/-- A well-formed RINEX 3 observation upload declaring one GPS pseudorange
observable and one epoch with the twelve satellites G11..G22. -/
def obsFileC1 : String :=
  "3.0 RINEX VERSION\nG 1 C1C SYS / # / OBS TYPES\nEND OF HEADER\n> 2024 1 1 0 0 0.0 0 12\nG11 20000000.1\nG12 20000000.1\nG13 20000000.1\nG14 20000000.1\nG15 20000000.1\nG16 20000000.1\nG17 20000000.1\nG18 20000000.1\nG19 20000000.1\nG20 20000000.1\nG21 20000000.1\nG22 20000000.1\n"

/-- A navigation upload above the 100-character minimum whose body parses
to no ephemeris record. -/
def navFileC1 : String :=
  "xxxxxxxxxxxxxxxxxxxxxxxxxxxxxxxxxxxxxxxxxxxxxxxxxxxxxxxxxxxxxxxxxxxxxxxxxxxxxxxxxxxxxxxxxxxxxxxxxxxxxxxxxxxxxxxxxxxxxx"

/-- A RINEX 3 observation upload whose single satellite record carries the
unparseable pseudorange token `abc`. -/
def obsFileC5 : String :=
  "3.0 RINEX VERSION\nG 1 C1C SYS / # / OBS TYPES\nEND OF HEADER\n> 2024 1 1 0 0 0.0 0 1\nG01 abc\nxxxxxxxxxxxxxxxxxxxxxxxxxxxxxxxxxxxxxxxxxxxxxxxxxxxxxx\n"

/-- Two consecutive fixes at identical coordinates (distance 0 < 100 m). -/
def posA : Position :=
  { epoch := 0, x := 4000000, y := 3000000, z := 5000000, pdop := 2, accuracy := 2, numSats := 8 }

def posB : Position :=
  { epoch := 1, x := 4000000, y := 3000000, z := 5000000, pdop := 2, accuracy := 2, numSats := 8 }

/- ## Order helper lemmas for Q -/

theorem q_le_iff_not_lt (a b : Q) : a ≤ b ↔ ¬ b < a := Int.not_lt.symm

theorem q_lt_of_lt_of_le {a b c : Q} (h1 : a < b) (h2 : b ≤ c) : a < c := by
  have ha : (0 : Int) < a.den := by unfold Q.den; omega
  have hb : (0 : Int) < b.den := by unfold Q.den; omega
  have hc : (0 : Int) < c.den := by unfold Q.den; omega
  have h1' : a.num * b.den < b.num * a.den := h1
  have h2' : b.num * c.den ≤ c.num * b.den := h2
  have key : a.num * c.den * b.den < c.num * a.den * b.den := by nlinarith
  exact lt_of_mul_lt_mul_right key (le_of_lt hb)

/- ## Length lemmas for the synthetic generators -/

theorem genPositionsFrom_length (env : MathEnv) :
    ∀ (n i : Nat) (r : RNG), ((genPositionsFrom env i n r).1).length = n := by
  intro n
  induction n with
  | zero => intro i r; rfl
  | succ k ih => intro i r; simp [genPositionsFrom, ih]

theorem genSignalList_length (env : MathEnv) :
    ∀ (n i : Nat) (r : RNG), ((genSignalList env i n r).1).length = n := by
  intro n
  induction n with
  | zero => intro i r; rfl
  | succ k ih => intro i r; simp [genSignalList, ih]

theorem genHealthList_length :
    ∀ (sats : List String) (r : RNG), ((genHealthList sats r).1).length = sats.length := by
  intro sats
  induction sats with
  | nil => intro r; rfl
  | cons s tl ih => intro r; simp [genHealthList, ih]

theorem jsModifyAt_length (f : α → α) : ∀ (n : Nat) (l : List α), (jsModifyAt f n l).length = l.length := by
  intro n l
  induction l generalizing n with
  | nil => cases n <;> rfl
  | cons a tl ih =>
    cases n with
    | zero => rfl
    | succ m => simp [jsModifyAt, ih]

theorem addArtificialJumps_length (ps : List Position) (js : List Nat) :
    ((addArtificialJumps ps js).1).length = ps.length := by
  unfold addArtificialJumps
  split
  · simp [jsModifyAt_length]
  · rfl

/- ## The claims -/

/-- C1: the spec claims the pipeline is a deterministic function of the two
uploaded byte streams with no hidden randomness.  The code consults
`Math.random` throughout: the same byte-identical pair of uploads run under
two different random outcome streams (constant 0.3 versus constant 0.4)
returns spoofing probabilities 93 and 94, hence two different
`DetectionResult`s. -/
theorem claim_C1_pipeline_not_deterministic :
    (POST testEnv (constRng 0.3) (some obsFileC1) (some navFileC1)).probOf = some 93 ∧
    (POST testEnv (constRng 0.4) (some obsFileC1) (some navFileC1)).probOf = some 94 ∧
    POST testEnv (constRng 0.3) (some obsFileC1) (some navFileC1) ≠
      POST testEnv (constRng 0.4) (some obsFileC1) (some navFileC1) := by
  have hA : (POST testEnv (constRng 0.3) (some obsFileC1) (some navFileC1)).probOf = some 93 := by
    decide
  have hB : (POST testEnv (constRng 0.4) (some obsFileC1) (some navFileC1)).probOf = some 94 := by
    decide
  refine ⟨hA, hB, fun h => ?_⟩
  rw [h] at hA
  rw [hA] at hB
  exact absurd hB (by decide)

/-- C2: the spec claims `spoofingProbability` equals
`clamp(5·|flaggedEpochs| + 20·|positionJumps| + 15·|unhealthySatellites|, 5, 95)`.
On a run with `|flaggedEpochs| = 6`, `|positionJumps| = 3` and
`|unhealthySatellites| = 0` that formula gives 90, but the code also adds
`Math.random() * 10` before clamping and rounding and returns 93. -/
theorem claim_C2_probability_formula_has_random_term :
    (generateRealisticResults testEnv (constRng 0.3) obs12 []).flaggedEpochs.length = 6 ∧
    (generateRealisticResults testEnv (constRng 0.3) obs12 []).positionJumps.length = 3 ∧
    unhealthyCount (generateRealisticResults testEnv (constRng 0.3) obs12 []).satelliteHealth = 0 ∧
    min 95 (max 5 ((5 : Int) * 6 + 20 * 3 + 15 * 0)) = 90 ∧
    (generateRealisticResults testEnv (constRng 0.3) obs12 []).spoofingProbability = 93 ∧
    (generateRealisticResults testEnv (constRng 0.3) obs12 []).spoofingProbability ≠
      min 95 (max 5 ((5 : Int) * 6 + 20 * 3 + 15 * 0)) := by decide

/-- C3: the probability-to-threat-level map is total with the buckets
`p < 25 → LOW`, `25 ≤ p < 50 → MEDIUM`, `50 ≤ p < 75 → HIGH`,
`75 ≤ p → CRITICAL`, and in particular takes the claimed values at
24, 25, 49, 74 and 75. -/
theorem claim_C3_threat_level_buckets :
    (∀ p : Q,
      (threatLevelOf p = .LOW ↔ p < 25) ∧
      (threatLevelOf p = .MEDIUM ↔ 25 ≤ p ∧ p < 50) ∧
      (threatLevelOf p = .HIGH ↔ 50 ≤ p ∧ p < 75) ∧
      (threatLevelOf p = .CRITICAL ↔ 75 ≤ p)) ∧
    threatLevelOf 24 = .LOW ∧ threatLevelOf 25 = .MEDIUM ∧ threatLevelOf 49 = .MEDIUM ∧
    threatLevelOf 74 = .HIGH ∧ threatLevelOf 75 = .CRITICAL := by
  refine ⟨fun p => ?_, by decide, by decide, by decide, by decide, by decide⟩
  have t1 : p < 25 → p < 50 := fun h => q_lt_of_lt_of_le h (by decide)
  have t2 : p < 50 → p < 75 := fun h => q_lt_of_lt_of_le h (by decide)
  unfold threatLevelOf
  split_ifs with h1 h2 h3
  · exact ⟨iff_of_true rfl h1,
      iff_of_false (by decide) (fun hc => ((q_le_iff_not_lt 25 p).mp hc.1) h1),
      iff_of_false (by decide) (fun hc => ((q_le_iff_not_lt 50 p).mp hc.1) (t1 h1)),
      iff_of_false (by decide) (fun hc => ((q_le_iff_not_lt 75 p).mp hc) (t2 (t1 h1)))⟩
  · exact ⟨iff_of_false (by decide) h1,
      iff_of_true rfl ⟨(q_le_iff_not_lt 25 p).mpr h1, h2⟩,
      iff_of_false (by decide) (fun hc => ((q_le_iff_not_lt 50 p).mp hc.1) h2),
      iff_of_false (by decide) (fun hc => ((q_le_iff_not_lt 75 p).mp hc) (t2 h2))⟩
  · exact ⟨iff_of_false (by decide) h1,
      iff_of_false (by decide) (fun hc => h2 hc.2),
      iff_of_true rfl ⟨(q_le_iff_not_lt 50 p).mpr h2, h3⟩,
      iff_of_false (by decide) (fun hc => ((q_le_iff_not_lt 75 p).mp hc) h3)⟩
  · exact ⟨iff_of_false (by decide) h1,
      iff_of_false (by decide) (fun hc => h2 hc.2),
      iff_of_false (by decide) (fun hc => h3 hc.2),
      iff_of_true rfl ((q_le_iff_not_lt 75 p).mpr h3)⟩

/-- Witness for C3: the bucket characterisation applied at the concrete
probability 30. -/
theorem claim_C3_witness : threatLevelOf 30 = ThreatLevel.MEDIUM :=
  (claim_C3_threat_level_buckets.1 30).2.1.mpr ⟨by decide, by decide⟩

/-- C4: the spec claims that on a sequence whose consecutive distances all
stay below the 100 m threshold no epoch is flagged.  On two identical
consecutive fixes (distance 0) the detection loop indeed finds nothing, but
the demonstration fallback then reports jumps `[16, 33, 42]` anyway, so the
returned `positionJumps` is not empty. -/
theorem claim_C4_artificial_jumps_break_empty_guarantee :
    jsDistance testEnv posA posB < 100 ∧
    detectPositionJumps testEnv [posA, posB] = [] ∧
    (addArtificialJumps [posA, posB] (detectPositionJumps testEnv [posA, posB])).2 = [16, 33, 42] ∧
    (addArtificialJumps [posA, posB] (detectPositionJumps testEnv [posA, posB])).2 ≠ [] := by decide

/-- C5: the spec claims a missing or unparseable observable token is set to
zero and the record kept.  The record is kept and parsing continues, but a
zero (falsy) field is then replaced by a random default: with the random
stream constantly 0, the unparseable pseudorange token `abc` comes out as
`20000000 + 0 * 5000000 = 20000000`, not 0. -/
theorem claim_C5_failed_tokens_become_random_defaults :
    jsParseFloat "abc" = none ∧
    (parseRinexObservation obsFileC5 (constRng 0)).1.length = 1 ∧
    ((parseRinexObservation obsFileC5 (constRng 0)).1.headD ⟨epochJan2024, []⟩).satellites.length = 1 ∧
    (((parseRinexObservation obsFileC5 (constRng 0)).1.headD ⟨epochJan2024, []⟩).satellites.headD
        ⟨"", 0, 0, 0, 0⟩).pseudorange.qeq 20000000 ∧
    ¬ (((parseRinexObservation obsFileC5 (constRng 0)).1.headD ⟨epochJan2024, []⟩).satellites.headD
        ⟨"", 0, 0, 0, 0⟩).pseudorange.qeq 0 ∧
    ((buildV3SatObs ["C1"] "G01" ["abc"] (constRng 0)).1).pseudorange.qeq 20000000 := by decide

/-- C6: both RINEX 2.x parsers pivot a two-digit year `v` to `v + 2000`
when `v < 80` and to `v + 1900` when `80 ≤ v < 100`; tokens 79, 85 and 00
give 2079, 1985 and 2000. -/
theorem claim_C6_two_digit_year_pivot :
    (∀ v : Int, (v < 80 → pivotYear v = v + 2000) ∧ (80 ≤ v → v < 100 → pivotYear v = v + 1900)) ∧
    parseV2Year "79" = 2079 ∧ parseV2Year "85" = 1985 ∧ parseV2Year "00" = 2000 := by
  refine ⟨fun v => ⟨fun h => ?_, fun h1 h2 => ?_⟩, by decide, by decide, by decide⟩
  · simp [pivotYear, h]
  · unfold pivotYear
    rw [if_neg (by omega), if_pos h2]

/-- Witness for C6: the pivot rule discharged at 7 and 85. -/
theorem claim_C6_witness : pivotYear 7 = 2007 ∧ pivotYear 85 = 1985 :=
  ⟨(claim_C6_two_digit_year_pivot.1 7).1 (by decide),
   (claim_C6_two_digit_year_pivot.1 85).2 (by decide) (by decide)⟩

/-- C7: a missing upload or one below 100 characters is rejected with a
descriptive 400 error before the parsers run, and any pair of uploads at or
above the threshold produces a success body: no parse-level irregularity
aborts the request. -/
theorem claim_C7_size_gate :
    ∀ (env : MathEnv) (r : RNG) (obs nav : String),
      (jsLength obs < 100 → POST env r (some obs) (some nav) = .err 400 msgObsTooSmall) ∧
      (100 ≤ jsLength obs → jsLength nav < 100 →
        POST env r (some obs) (some nav) = .err 400 msgNavTooSmall) ∧
      (100 ≤ jsLength obs → 100 ≤ jsLength nav →
        ∃ body, POST env r (some obs) (some nav) = .ok body) ∧
      POST env r none (some nav) = .err 400 msgBothRequired ∧
      POST env r (some obs) none = .err 400 msgBothRequired := by
  intro env r obs nav
  refine ⟨fun h => ?_, fun h1 h2 => ?_, fun h1 h2 => ?_, rfl, rfl⟩
  · simp [POST, h]
  · simp [POST, h2, Nat.not_lt.mpr h1]
  · refine ⟨generateRealisticResults env (parseRinexObservation obs r).2
      (parseRinexObservation obs r).1 (parseRinexNavigation env nav), ?_⟩
    simp [POST, Nat.not_lt.mpr h1, Nat.not_lt.mpr h2, handleParsed]

/-- Witness for C7: a 4-character observation upload is rejected, and the
concrete well-formed uploads are accepted. -/
theorem claim_C7_witness :
    POST testEnv (constRng 0) (some "tiny") (some navFileC1) = .err 400 msgObsTooSmall ∧
    ∃ body, POST testEnv (constRng 0) (some obsFileC1) (some navFileC1) = .ok body :=
  ⟨(claim_C7_size_gate testEnv (constRng 0) "tiny" navFileC1).1 (by decide),
   (claim_C7_size_gate testEnv (constRng 0) obsFileC1 navFileC1).2.2.1 (by decide) (by decide)⟩

/-- C8: the spec requires an explicit insufficient-data result when parsing
yields too little data.  Instead, on an empty parse the code fabricates a
full synthetic result: 50 position fixes, 50 PDOP values, 50 signal
entries, 10 satellites and 10 health entries appear although the input
contributed none of them. -/
theorem claim_C8_fabricates_synthetic_result_on_empty_parse :
    ∀ (env : MathEnv) (r : RNG),
      (generateRealisticResults env r [] []).positionData.length = 50 ∧
      (generateRealisticResults env r [] []).pdopValues.length = 50 ∧
      (generateRealisticResults env r [] []).signalData.length = 50 ∧
      (generateRealisticResults env r [] []).satelliteHealth.length = 10 ∧
      (generateRealisticResults env r [] []).processingInfo.totalEpochs = 50 ∧
      (generateRealisticResults env r [] []).processingInfo.totalSatellites = 10 := by
  intro env r
  refine ⟨?_, ?_, ?_, ?_, rfl, rfl⟩
  · simp [generateRealisticResults, addArtificialJumps_length, genPositionsFrom_length]
  · simp [generateRealisticResults, addArtificialJumps_length, genPositionsFrom_length]
  · simp [generateRealisticResults, genSignalList_length, addArtificialJumps_length,
      genPositionsFrom_length]
  · simp [generateRealisticResults, genHealthList_length]
    decide

/-- Witness for C8: the fabricated lengths at a concrete run. -/
theorem claim_C8_witness :
    (generateRealisticResults testEnv (constRng 0) [] []).positionData.length = 50 :=
  (claim_C8_fabricates_synthetic_result_on_empty_parse testEnv (constRng 0)).1

/-- C9: when a parser throws, the catch block still answers with a 200
success whose body is generated from empty observation and ephemeris
lists; no outcome of the parse stage ever surfaces as an error response. -/
theorem claim_C9_parse_exception_masked_as_success :
    ∀ (env : MathEnv) (r : RNG),
      (∀ msg : String,
        handleParsed env r (.error msg) = .ok (generateRealisticResults env r [] [])) ∧
      ∀ out, ∃ body, handleParsed env r out = .ok body := by
  intro env r
  refine ⟨fun msg => rfl, fun out => ?_⟩
  cases out with
  | ok o => exact ⟨_, rfl⟩
  | error e => exact ⟨_, rfl⟩

/-- Witness for C9: the catch path at a concrete exception message. -/
theorem claim_C9_witness :
    handleParsed testEnv (constRng 0) (.error "bad line") =
      .ok (generateRealisticResults testEnv (constRng 0) [] []) :=
  (claim_C9_parse_exception_masked_as_success testEnv (constRng 0)).1 "bad line"

/-- C10: the reported `totalEpochs` is `max(50, parsed epoch count)`; in
particular it is 50 even when the observation file parses to zero
epochs. -/
theorem claim_C10_totalEpochs_is_max_50 :
    (∀ (env : MathEnv) (r : RNG) (obs : List ObsEpoch) (eph : List NavRec),
      (generateRealisticResults env r obs eph).processingInfo.totalEpochs = max 50 obs.length) ∧
    ∀ (env : MathEnv) (r rP : RNG) (content : String) (eph : List NavRec),
      (generateRealisticResults env r (parseRinexObservation content rP).1 eph).processingInfo.totalEpochs =
        max 50 (parseRinexObservation content rP).1.length := by
  exact ⟨fun env r obs eph => rfl, fun env r rP content eph => rfl⟩

/-- Witness for C10: the equality at a concrete parsed input. -/
theorem claim_C10_witness :
    (generateRealisticResults testEnv (constRng 0) obs12 []).processingInfo.totalEpochs =
      max 50 obs12.length :=
  claim_C10_totalEpochs_is_max_50.1 testEnv (constRng 0) obs12 []

end RinexSpoof
